import Mathlib

/-!
Formal model of the desktop video-wallpaper playbook core (app.py).

The model is a shallow embedding of `VideoPlayerThread.run` and its helper
functions.  External OS and decoder calls (win32 device contexts, GDI
StretchDIBits, cv2.VideoCapture) are modelled as explicit data supplied by an
`Env` record: the result of the WorkerW search, the monitor list returned by
enumeration, the decoder state produced for each video path, and fault flags
for the drawing-context acquisition calls that may raise.  Resource
acquisition and release (device contexts, bitmap, decoder handles) are
tracked in the result record so resource-balance properties can be stated.

Pixel semantics: the composition surface is a colour-valued function on
integer coordinates; `FillSolidRect` and `StretchDIBits` update it on their
destination rectangles (StretchDIBits with nearest-sample scaling).

Not modelled: the once-per-second live-FPS re-emission (lines 171-173 of
app.py, purely time-driven telemetry) and the Qt UI layer, which the spec
excludes from the core.
-/

/-- A BGR pixel as decoded from a video frame (cv2 default channel order). -/
structure Pix3 where
  b : Nat
  g : Nat
  r : Nat
deriving DecidableEq

/-- A BGRA pixel in the 32-bit-per-pixel composition-surface format. -/
structure Pix4 where
  b : Nat
  g : Nat
  r : Nat
  a : Nat
deriving DecidableEq

/-- The fill value win32api.RGB(0, 0, 0) as a 32bpp pixel (reserved byte 0). -/
def rgbBlack : Pix4 := ⟨0, 0, 0, 0⟩

/-- A decoded frame: rows of BGR pixels. -/
structure Frame where
  rows : List (List Pix3)
deriving DecidableEq

/-- A frame after conversion to the 4-channel layout. -/
structure Frame4 where
  rows : List (List Pix4)
deriving DecidableEq

/-- BGR to BGRA conversion of one pixel: alpha is set fully opaque. -/
def pix3to4 (p : Pix3) : Pix4 := ⟨p.b, p.g, p.r, 255⟩

/-- cv2.cvtColor(frame, cv2.COLOR_BGR2BGRA) (app.py line 143). -/
def cvtColorBGR2BGRA (f : Frame) : Frame4 :=
  ⟨f.rows.map (fun row => row.map pix3to4)⟩

/-- Read the pixel at column x, row y of a converted frame. -/
def samplePix (f : Frame4) (x y : Nat) : Pix4 :=
  (f.rows.getD y []).getD x ⟨0, 0, 0, 0⟩

/-- The composition surface: the colour at each integer coordinate. -/
abbrev Surface : Type := Int → Int → Pix4

/-- save_dc.FillSolidRect((l, t, r, b), colour) (app.py line 129):
fills the half-open rectangle [l, r) x [t, b) with the given colour. -/
def fillSolidRect (s : Surface) (l t r b : Int) (c : Pix4) : Surface :=
  fun px py => if l ≤ px ∧ px < r ∧ t ≤ py ∧ py < b then c else s px py

/-- windll.gdi32.StretchDIBits (app.py lines 147-157): stretches the
source frame (sw x sh pixels, source origin (0,0)) onto the destination
rectangle of width dw and height dh at (dx, dy), scaling by nearest sample;
pixels outside the destination rectangle are untouched. -/
def stretchDIBits (s : Surface) (dx dy dw dh : Int) (sw sh : Nat)
    (f : Frame4) : Surface :=
  fun px py =>
    if dx ≤ px ∧ px < dx + dw ∧ dy ≤ py ∧ py < dy + dh then
      samplePix f ((px - dx) * (sw : Int) / dw).toNat
        ((py - dy) * (sh : Int) / dh).toNat
    else s px py

/-- A monitor rectangle as produced by get_monitors (app.py lines 27-35);
only the geometry fields are consumed by the playbook loop. -/
structure Monitor where
  x : Int
  y : Int
  width : Int
  height : Int
deriving DecidableEq

/-- Python min over a list, raising ValueError on an empty argument
(app.py lines 103-104 use the min builtin on a generator). -/
def pyMin (l : List Int) : Except String Int :=
  match l with
  | [] => .error "min() arg is an empty sequence"
  | x :: xs => .ok (xs.foldl min x)

/-- Python max over a list, raising ValueError on an empty argument
(app.py lines 105-106 use the max builtin on a generator). -/
def pyMax (l : List Int) : Except String Int :=
  match l with
  | [] => .error "max() arg is an empty sequence"
  | x :: xs => .ok (xs.foldl max x)

/-- The bounding-box computation of app.py lines 103-106:
min_x, min_y, total_width, total_height.  An empty monitor list makes the
first min raise, which propagates to the catch-all handler. -/
def computeBBox (monitors : List Monitor) :
    Except String (Int × Int × Int × Int) := do
  let min_x ← pyMin (monitors.map (fun m => m.x))
  let min_y ← pyMin (monitors.map (fun m => m.y))
  let total_width ← pyMax (monitors.map (fun m => m.x + m.width - min_x))
  let total_height ← pyMax (monitors.map (fun m => m.y + m.height - min_y))
  pure (min_x, min_y, total_width, total_height)

/-- State of one cv2.VideoCapture decoder. `opened` is the isOpened result;
`frames` the decodable frame sequence; `frameWidth`/`frameHeight` the
container properties CAP_PROP_FRAME_WIDTH/HEIGHT; `nativeFps` the
CAP_PROP_FPS property; `pos` the current frame position. -/
structure Cap where
  opened : Bool
  frames : List Frame
  frameWidth : Nat
  frameHeight : Nat
  nativeFps : Nat
  pos : Nat
deriving DecidableEq

/-- cap.read(): returns the frame at the current position and advances it,
or a failed read at end of stream. -/
def capRead (c : Cap) : Option Frame × Cap :=
  if h : c.pos < c.frames.length then
    (some (c.frames.get ⟨c.pos, h⟩), { c with pos := c.pos + 1 })
  else (none, c)

/-- cap.set(cv2.CAP_PROP_POS_FRAMES, 0): seek to the first frame. -/
def capSeekStart (c : Cap) : Cap := { c with pos := 0 }

/-- The read of app.py lines 136-141: one read; on failure seek to frame 0
and retry exactly once; a second failure yields no frame for this tick. -/
def readLooped (c : Cap) : Option Frame × Cap :=
  let r1 := capRead c
  match r1.1 with
  | some f => (some f, r1.2)
  | none => capRead (capSeekStart r1.2)

/-- One entry of the monitor_config mapping handed to the thread:
video path, monitor geometry snapshot, optional configured rate
(config.get('fps', 30) defaults to 30 when absent). -/
structure AssignConfig where
  video_path : String
  monitor_info : Monitor
  fps? : Option Nat
deriving DecidableEq

/-- One entry of the caps dictionary built in app.py lines 116-120. -/
structure CapData where
  cap : Cap
  info : Monitor
  fps : Nat
deriving DecidableEq

/-- The source-opening pass of app.py lines 112-125.  Returns, in config
order: the stored caps (successfully opened sources), the error messages
emitted for non-empty paths that failed to open, the native-FPS signals
emitted for opened sources, and the (monitor id, path) pairs for every
VideoCapture constructed (opened or not). -/
def openSources (capFor : String → Cap) :
    List (String × AssignConfig) →
      List (String × CapData) × List String × List Nat × List (String × String)
  | [] => ([], [], [], [])
  | (mid, cfg) :: rest =>
    let o := openSources capFor rest
    if cfg.video_path = "" then o
    else
      let cap := capFor cfg.video_path
      if cap.opened then
        ((mid, ⟨cap, cfg.monitor_info, cfg.fps?.getD 30⟩) :: o.1,
         o.2.1, cap.nativeFps :: o.2.2.1, (mid, cfg.video_path) :: o.2.2.2)
      else
        (o.1, ("Could not open video: " ++ cfg.video_path) :: o.2.1,
         o.2.2.1, (mid, cfg.video_path) :: o.2.2.2)

/-- The per-tick drawing pass over the caps mapping (app.py lines 131-157).
For each source in order: remember its configured rate in the shared fps
variable, read a frame with loop-restart, and on success convert it to
BGRA and stretch it onto the monitor rectangle translated by the bounding
box origin.  Returns the updated caps, the updated surface, and the last
value of the shared fps variable. -/
def drawSources (min_x min_y : Int) :
    List (String × CapData) → Surface → Option Nat →
      List (String × CapData) × Surface × Option Nat
  | [], surf, lastFps => ([], surf, lastFps)
  | (mid, data) :: rest, surf, _ =>
    let fps := data.fps
    let rl := readLooped data.cap
    match rl.1 with
    | none =>
      let d := drawSources min_x min_y rest surf (some fps)
      ((mid, { data with cap := rl.2 }) :: d.1, d.2.1, d.2.2)
    | some frame =>
      let f4 := cvtColorBGR2BGRA frame
      let video_width := data.cap.frameWidth
      let video_height := data.cap.frameHeight
      let surf2 := stretchDIBits surf (data.info.x - min_x)
        (data.info.y - min_y) data.info.width data.info.height
        video_width video_height f4
      let d := drawSources min_x min_y rest surf2 (some fps)
      ((mid, { data with cap := rl.2 }) :: d.1, d.2.1, d.2.2)

/-- Observable outcome of the while loop of app.py lines 128-175. -/
structure LoopOut where
  caps : List (String × CapData)
  surf : Surface
  ticks : Nat
  sleeps : List Nat
  presentAttempts : Nat
  printed : List String
  lastPresented : Option Surface

/-- The Running-state loop (app.py lines 128-175).  The fuel argument
models the stop flag: the thread observes self.running as true for
exactly fuel tick boundaries.  Each tick clears the surface to black,
draws all sources, attempts the BitBlt present (a failure is caught and
printed, the tick continues), and sleeps int(1000 / fps) milliseconds
using the shared fps variable left by the drawing pass. -/
def runLoop (min_x min_y total_width total_height : Int) (presentOk : Bool) :
    Nat → List (String × CapData) → Surface → LoopOut
  | 0, caps, surf => ⟨caps, surf, 0, [], 0, [], none⟩
  | fuel + 1, caps, surf =>
    if caps = [] then ⟨caps, surf, 0, [], 0, [], none⟩
    else
      let surf1 := fillSolidRect surf 0 0 total_width total_height rgbBlack
      let d := drawSources min_x min_y caps surf1 none
      let presentedHere : Option Surface := if presentOk then some d.2.1 else none
      let printedHere : List String :=
        if presentOk then [] else ["Error in BitBlt operation"]
      let sleepHere := 1000 / (d.2.2.getD 0)
      let rest := runLoop min_x min_y total_width total_height presentOk
        fuel d.1 d.2.1
      ⟨rest.caps, rest.surf, rest.ticks + 1, sleepHere :: rest.sleeps,
       rest.presentAttempts + 1, printedHere ++ rest.printed,
       rest.lastPresented.orElse (fun _ => presentedHere)⟩

/-- The environment a session run executes against: the result of the
WorkerW search, fault flags for the drawing-context acquisitions that may
raise, the monitor list, the decoder state each path opens to, the number
of ticks before the stop flag is observed, and whether BitBlt succeeds. -/
structure Env where
  workerw : Option Nat
  dcOk : Bool
  monitors : List Monitor
  bmpOk : Bool
  monitor_config : List (String × AssignConfig)
  capFor : String → Cap
  tickBudget : Nat
  presentOk : Bool

/-- Observable outcome of one execution of the thread body
VideoPlayerThread.run, resource accounting included. -/
structure RunResult where
  errors : List String
  fpsSignals : List Nat
  ticks : Nat
  sleeps : List Nat
  presentAttempts : Nat
  lastPresented : Option Surface
  hwndDCAcquired : Bool
  hwndDCReleased : Bool
  mfcDCAcquired : Bool
  mfcDCReleased : Bool
  saveDCAcquired : Bool
  saveDCReleased : Bool
  bmpAcquired : Bool
  bmpReleased : Bool
  capsConstructed : List (String × String)
  capsStored : List String
  capsReleased : List String

/-- Outcome of a run that ends before the while loop through an early
return or a caught exception: the finally block releases exactly the
drawing resources acquired so far and iterates the (still empty) caps. -/
def abortResult (errs : List String)
    (hwndA hwndR mfcA mfcR saveA saveR : Bool) : RunResult :=
  { errors := errs, fpsSignals := [], ticks := 0, sleeps := [],
    presentAttempts := 0, lastPresented := none,
    hwndDCAcquired := hwndA, hwndDCReleased := hwndR,
    mfcDCAcquired := mfcA, mfcDCReleased := mfcR,
    saveDCAcquired := saveA, saveDCReleased := saveR,
    bmpAcquired := false, bmpReleased := false,
    capsConstructed := [], capsStored := [], capsReleased := [] }

/-- VideoPlayerThread.run (app.py lines 84-190).  Control flow:
WorkerW not found emits an error and returns before any acquisition;
GetWindowDC / CreateDCFromHandle / CreateCompatibleDC acquire the
contexts (a raise there is caught, emitted, and the finally block
releases what exists); the bounding box is computed (raising on zero
monitors); the compatible bitmap is created; sources are opened; the
Running loop executes; finally releases every opened cap and every
acquired drawing resource. -/
def runThread (env : Env) : RunResult :=
  match env.workerw with
  | none => abortResult ["Could not find WorkerW window"]
      false false false false false false
  | some _ =>
    if env.dcOk then
      match computeBBox env.monitors with
      | .error msg => abortResult [msg] true true true true true true
      | .ok (min_x, min_y, total_width, total_height) =>
        if env.bmpOk then
          let o := openSources env.capFor env.monitor_config
          let lo := runLoop min_x min_y total_width total_height
            env.presentOk env.tickBudget o.1 (fun _ _ => rgbBlack)
          { errors := o.2.1, fpsSignals := o.2.2.1, ticks := lo.ticks,
            sleeps := lo.sleeps, presentAttempts := lo.presentAttempts,
            lastPresented := lo.lastPresented,
            hwndDCAcquired := true, hwndDCReleased := true,
            mfcDCAcquired := true, mfcDCReleased := true,
            saveDCAcquired := true, saveDCReleased := true,
            bmpAcquired := true, bmpReleased := true,
            capsConstructed := o.2.2.2,
            capsStored := (o.1).map Prod.fst,
            capsReleased := lo.caps.map Prod.fst }
        else abortResult ["CreateCompatibleBitmap failed"]
          true true true true true true
    else abortResult ["CreateDCFromHandle failed"]
      true true false false false false

/-! ### Bounding-box facts (app.py lines 102-106) -/

/-- Minimum monitor x over a non-empty monitor list. -/
def minXOf (m : Monitor) (ms : List Monitor) : Int :=
  (ms.map (fun n => n.x)).foldl min m.x

/-- Minimum monitor y over a non-empty monitor list. -/
def minYOf (m : Monitor) (ms : List Monitor) : Int :=
  (ms.map (fun n => n.y)).foldl min m.y

/-- Maximum of x + width over a non-empty monitor list. -/
def maxXWOf (m : Monitor) (ms : List Monitor) : Int :=
  (ms.map (fun n => n.x + n.width)).foldl max (m.x + m.width)

/-- Maximum of y + height over a non-empty monitor list. -/
def maxYHOf (m : Monitor) (ms : List Monitor) : Int :=
  (ms.map (fun n => n.y + n.height)).foldl max (m.y + m.height)

/-- The per-source data the drawing pass never changes (everything except
the decoder position): key, decoder properties, geometry, configured rate. -/
structure CapShape where
  key : String
  opened : Bool
  frames : List Frame
  frameWidth : Nat
  frameHeight : Nat
  nativeFps : Nat
  info : Monitor
  fps : Nat
deriving DecidableEq

def capShape (p : String × CapData) : CapShape :=
  ⟨p.1, p.2.cap.opened, p.2.cap.frames, p.2.cap.frameWidth,
   p.2.cap.frameHeight, p.2.cap.nativeFps, p.2.info, p.2.fps⟩

/-- The Running loop a successful startup reaches, with the bounding box
computed from the non-empty monitor list m :: ms. -/
def sessionLoop (env : Env) (m : Monitor) (ms : List Monitor) : LoopOut :=
  runLoop (minXOf m ms) (minYOf m ms)
    (maxXWOf m ms - minXOf m ms) (maxYHOf m ms - minYOf m ms)
    env.presentOk env.tickBudget
    (openSources env.capFor env.monitor_config).1 (fun _ _ => rgbBlack)

/-- Number of drawing-resource acquisitions recorded in a run result. -/
def acquiredCount (r : RunResult) : Nat :=
  (if r.hwndDCAcquired then 1 else 0) + (if r.mfcDCAcquired then 1 else 0)
    + (if r.saveDCAcquired then 1 else 0) + (if r.bmpAcquired then 1 else 0)

/-- Number of drawing-resource releases recorded in a run result. -/
def releasedCount (r : RunResult) : Nat :=
  (if r.hwndDCReleased then 1 else 0) + (if r.mfcDCReleased then 1 else 0)
    + (if r.saveDCReleased then 1 else 0) + (if r.bmpReleased then 1 else 0)

/-! ### Concrete instances used by counterexamples and witnesses -/

def mon1 : Monitor := ⟨0, 0, 16, 8⟩

def capClosed : Cap := ⟨false, [], 0, 0, 0, 0⟩

def frameA : Frame := ⟨[[⟨10, 20, 30⟩]]⟩

def frameB : Frame := ⟨[[⟨1, 2, 3⟩]]⟩

def capTwo : Cap := ⟨true, [frameA, frameB], 1, 1, 24, 5⟩

def capEmptyFrames : Cap := ⟨true, [], 1, 1, 30, 0⟩

def monW : Monitor := ⟨1, 1, 2, 2⟩

def cdEmpty : CapData := ⟨capEmptyFrames, monW, 30⟩

def capOne : Cap := ⟨true, [frameA], 1, 1, 24, 0⟩

def cdOne : CapData := ⟨capOne, monW, 24⟩

def cfgBad : AssignConfig := ⟨"bad.mp4", mon1, some 30⟩

def envEmptyCfg : Env :=
  ⟨some 1, true, [mon1], true, [], fun _ => capClosed, 5, true⟩

def envFailOpen : Env :=
  ⟨some 1, true, [mon1], true, [("monitor_1", cfgBad)],
   fun _ => capClosed, 3, true⟩

def envNoMonitors : Env :=
  ⟨some 1, true, [], true, [], fun _ => capClosed, 5, true⟩

def envNoWorker : Env :=
  ⟨none, true, [mon1], true, [], fun _ => capClosed, 5, true⟩

/-! ### Proof development -/

lemma foldl_max_map_sub (c : Int) :
    ∀ (l : List Int) (a : Int),
      (l.map (fun v => v - c)).foldl max (a - c) = l.foldl max a - c
  | [], _ => rfl
  | x :: xs, a => by
    simp only [List.map_cons, List.foldl_cons]
    rw [max_sub_sub_right a x c]
    exact foldl_max_map_sub c xs (max a x)

lemma computeBBox_cons (m : Monitor) (ms : List Monitor) :
    computeBBox (m :: ms) =
      .ok (minXOf m ms, minYOf m ms,
           maxXWOf m ms - minXOf m ms, maxYHOf m ms - minYOf m ms) := by
  have hgen : ∀ (f : Monitor → Int) (c a : Int) (l : List Monitor),
      (l.map (fun n => f n - c)).foldl max (a - c)
        = (l.map f).foldl max a - c := by
    intro f c a l
    rw [show l.map (fun n => f n - c) = (l.map f).map (fun v => v - c) by
      simp [List.map_map, Function.comp]]
    exact foldl_max_map_sub c (l.map f) a
  simp only [computeBBox, pyMin, pyMax, List.map_cons, bind, Except.bind]
  rw [hgen (fun n => n.x + n.width), hgen (fun n => n.y + n.height)]
  rfl

/-- Claim C4: for every non-empty monitor set, the computed
composition-surface bounding box has width max(x+w) - min(x) and height
max(y+h) - min(y) over all monitor rectangles, with origin
(min(x), min(y)). -/
theorem bbox_matches_minmax (m : Monitor) (ms : List Monitor) :
    computeBBox (m :: ms) =
      .ok (minXOf m ms, minYOf m ms,
           maxXWOf m ms - minXOf m ms, maxYHOf m ms - minYOf m ms) :=
  computeBBox_cons m ms

/-! ### Structure preservation of the drawing pass -/

lemma readLooped_snd (c : Cap) : ∃ p, (readLooped c).2 = { c with pos := p } := by
  rcases Nat.lt_or_ge c.pos c.frames.length with h | h
  · exact ⟨c.pos + 1, by simp [readLooped, capRead, capSeekStart, h]⟩
  · by_cases h0 : 0 < c.frames.length
    · exact ⟨1, by simp [readLooped, capRead, capSeekStart, Nat.not_lt.mpr h, h0]⟩
    · exact ⟨0, by simp [readLooped, capRead, capSeekStart, Nat.not_lt.mpr h, h0]⟩

lemma drawSources_shape (min_x min_y : Int) :
    ∀ (caps : List (String × CapData)) (surf : Surface) (lf : Option Nat),
      ((drawSources min_x min_y caps surf lf).1).map capShape
        = caps.map capShape := by
  intro caps
  induction caps with
  | nil => intro surf lf; rfl
  | cons hd tl ih =>
    intro surf lf
    obtain ⟨mid, data⟩ := hd
    obtain ⟨p, hp⟩ := readLooped_snd data.cap
    simp only [drawSources]
    cases hr : (readLooped data.cap).1 with
    | none => simp [hr, ih, capShape, hp]
    | some frame => simp [hr, ih, capShape, hp]

lemma shape_map_fst {l l' : List (String × CapData)}
    (h : l.map capShape = l'.map capShape) :
    l.map Prod.fst = l'.map Prod.fst := by
  have h2 := congrArg (List.map CapShape.key) h
  simpa [List.map_map, Function.comp, capShape] using h2

lemma runLoop_nil (mx my tw th : Int) (pok : Bool) (fuel : Nat)
    (surf : Surface) :
    runLoop mx my tw th pok fuel [] surf = ⟨[], surf, 0, [], 0, [], none⟩ := by
  cases fuel <;> simp [runLoop]

lemma runLoop_caps_shape (mx my tw th : Int) (pok : Bool) :
    ∀ (fuel : Nat) (caps : List (String × CapData)) (surf : Surface),
      ((runLoop mx my tw th pok fuel caps surf).caps).map capShape
        = caps.map capShape := by
  intro fuel
  induction fuel with
  | zero => intro caps surf; rfl
  | succ n ih =>
    intro caps surf
    by_cases h : caps = []
    · simp [runLoop, h]
    · simp only [runLoop, if_neg h]
      simp [ih, drawSources_shape]

lemma getLast?_cons_of_ne_nil {α : Type} (a : α) {l : List α} (h : l ≠ []) :
    (a :: l).getLast? = l.getLast? := by
  rcases List.exists_cons_of_ne_nil h with ⟨y, ys, rfl⟩
  exact List.getLast?_cons_cons

lemma drawSources_lastFps (mx my : Int) :
    ∀ (caps : List (String × CapData)) (surf : Surface) (lf : Option Nat)
      (s : CapShape), (caps.map capShape).getLast? = some s →
      (drawSources mx my caps surf lf).2.2 = some s.fps := by
  intro caps
  induction caps with
  | nil => intro surf lf s h; simp at h
  | cons hd tl ih =>
    intro surf lf s h
    obtain ⟨mid, data⟩ := hd
    by_cases htl : tl = []
    · subst htl
      simp only [List.map_cons, List.map_nil, List.getLast?_singleton,
        Option.some_inj] at h
      simp only [drawSources]
      cases hr : (readLooped data.cap).1 <;>
        simp [drawSources, hr, ← h, capShape]
    · have h' : (tl.map capShape).getLast? = some s := by
        rw [List.map_cons, getLast?_cons_of_ne_nil _ (by simpa using htl)] at h
        exact h
      simp only [drawSources]
      cases hr : (readLooped data.cap).1 <;> simp only [hr] <;>
        exact ih _ _ s h'

lemma runLoop_sleeps (mx my tw th : Int) (pok : Bool) :
    ∀ (fuel : Nat) (caps : List (String × CapData)) (surf : Surface)
      (s : CapShape), (caps.map capShape).getLast? = some s →
      (runLoop mx my tw th pok fuel caps surf).sleeps
          = List.replicate fuel (1000 / s.fps) ∧
        (runLoop mx my tw th pok fuel caps surf).ticks = fuel := by
  intro fuel
  induction fuel with
  | zero => intro caps surf s h; exact ⟨rfl, rfl⟩
  | succ n ih =>
    intro caps surf s h
    have hne : caps ≠ [] := by
      intro he
      rw [he] at h
      simp at h
    have hlf := drawSources_lastFps mx my caps
      (fillSolidRect surf 0 0 tw th rgbBlack) none s h
    have hshape := drawSources_shape mx my caps
      (fillSolidRect surf 0 0 tw th rgbBlack) none
    have h' : (((drawSources mx my caps
        (fillSolidRect surf 0 0 tw th rgbBlack) none).1).map capShape).getLast?
        = some s := by rw [hshape]; exact h
    obtain ⟨ih1, ih2⟩ := ih _
      ((drawSources mx my caps (fillSolidRect surf 0 0 tw th rgbBlack) none).2.1)
      s h'
    simp only [runLoop, if_neg hne]
    simp [hlf, ih1, ih2, List.replicate_succ]

/-- Claim C7: every tick of the Running state ends with a pacing sleep of
1000 / rate milliseconds (integer division, as int(1000 / fps)), where
rate is the configured frame rate of the last monitor assignment processed
in that tick — one shared rate value for the whole tick, not per-source
pacing, and the same for every tick of the session. -/
theorem tick_pacing_uses_last_rate (mx my tw th : Int) (pok : Bool)
    (fuel : Nat) (caps : List (String × CapData)) (surf : Surface)
    (s : CapShape) (h : (caps.map capShape).getLast? = some s) :
    (runLoop mx my tw th pok fuel caps surf).sleeps
        = List.replicate fuel (1000 / s.fps) ∧
      (runLoop mx my tw th pok fuel caps surf).ticks = fuel :=
  runLoop_sleeps mx my tw th pok fuel caps surf s h

/-! ### End-of-stream loop restart (app.py lines 136-141) -/

/-- Claim C6: an open source whose read hits end-of-stream is seeked to
frame 0 and re-read exactly once, and for a source with at least 2 frames
that retried read yields the first frame's content (position then 1); a
source whose retried read also fails is skipped for the current tick only
(surface untouched), stays in the caps mapping with its position reset to
0, and the drawing pass never removes any source, so it is read again on
the next tick. -/
theorem eos_loop_restart (c : Cap) (h2 : 2 ≤ c.frames.length)
    (he : c.frames.length ≤ c.pos)
    (mx my : Int) (mid : String) (d : CapData) (hd : d.cap.frames = [])
    (surf : Surface) (lf : Option Nat)
    (caps : List (String × CapData)) :
    readLooped c = (some (c.frames.headD ⟨[]⟩), { c with pos := 1 }) ∧
    drawSources mx my [(mid, d)] surf lf
      = ([(mid, { d with cap := { d.cap with pos := 0 } })], surf, some d.fps) ∧
    ((drawSources mx my caps surf lf).1).map capShape = caps.map capShape := by
  refine ⟨?_, ?_, drawSources_shape mx my caps surf lf⟩
  · obtain ⟨f, fs, hf⟩ : ∃ f fs, c.frames = f :: fs := by
      cases hcf : c.frames with
      | nil => rw [hcf] at h2; simp at h2
      | cons f fs => exact ⟨f, fs, rfl⟩
    have hnot : ¬ c.pos < fs.length + 1 := by
      rw [hf] at he
      simp only [List.length_cons] at he
      omega
    simp [readLooped, capRead, capSeekStart, hnot, hf]
  · have hrl : readLooped d.cap = (none, { d.cap with pos := 0 }) := by
      simp [readLooped, capRead, capSeekStart, hd]
    simp [drawSources, hrl]

/-! ### Blit geometry (app.py lines 143-157) -/

/-- Claim C9: in a tick, a source's decoded frame is converted to the
4-channel layout and stretched into exactly the destination rectangle at
composition coordinates (monitor.x - min_x, monitor.y - min_y) with the
monitor's full width and height — the destination rectangle is independent
of the frame's native resolution, which only drives the sampling — while a
stretch leaves every pixel outside its destination rectangle unchanged, so
composition-surface pixels outside the rectangle keep the last-cleared
colour. -/
theorem blit_into_monitor_rect (mx my tw th : Int) (mid : String)
    (d : CapData) (surf0 : Surface)
    (hread : d.cap.pos < d.cap.frames.length) (px py : Int)
    (s : Surface) (dx dy dw dh : Int) (sw sh : Nat) (f : Frame4)
    (qx qy : Int)
    (hq : ¬ (dx ≤ qx ∧ qx < dx + dw ∧ dy ≤ qy ∧ qy < dy + dh)) :
    stretchDIBits s dx dy dw dh sw sh f qx qy = s qx qy ∧
    ((d.info.x - mx ≤ px ∧ px < d.info.x - mx + d.info.width ∧
      d.info.y - my ≤ py ∧ py < d.info.y - my + d.info.height) →
      (drawSources mx my [(mid, d)]
          (fillSolidRect surf0 0 0 tw th rgbBlack) none).2.1 px py
        = samplePix (cvtColorBGR2BGRA (d.cap.frames.get ⟨d.cap.pos, hread⟩))
            ((px - (d.info.x - mx)) * (d.cap.frameWidth : Int)
              / d.info.width).toNat
            ((py - (d.info.y - my)) * (d.cap.frameHeight : Int)
              / d.info.height).toNat) ∧
    (¬ (d.info.x - mx ≤ px ∧ px < d.info.x - mx + d.info.width ∧
        d.info.y - my ≤ py ∧ py < d.info.y - my + d.info.height) →
      (0 ≤ px ∧ px < tw ∧ 0 ≤ py ∧ py < th) →
      (drawSources mx my [(mid, d)]
          (fillSolidRect surf0 0 0 tw th rgbBlack) none).2.1 px py
        = rgbBlack) := by
  have hrl : (readLooped d.cap).1
      = some (d.cap.frames.get ⟨d.cap.pos, hread⟩) := by
    simp [readLooped, capRead, hread]
  refine ⟨by simp [stretchDIBits, hq], ?_, ?_⟩
  · intro hin
    simp only [drawSources, hrl]
    simp [stretchDIBits, hin]
  · intro hout hb
    simp only [drawSources, hrl]
    simp [stretchDIBits, fillSolidRect, hb]
    intro h1 h2 h3 h4
    exact absurd ⟨by omega, by omega, by omega, by omega⟩ hout

/-! ### Ticks in which every read and its retry fail -/

lemma drawSources_surf_allEmpty (mx my : Int) :
    ∀ (caps : List (String × CapData)) (surf : Surface) (lf : Option Nat),
      (∀ p ∈ caps, p.2.cap.frames = ([] : List Frame)) →
      (drawSources mx my caps surf lf).2.1 = surf := by
  intro caps
  induction caps with
  | nil => intro surf lf _; rfl
  | cons hd tl ih =>
    intro surf lf h
    obtain ⟨mid, data⟩ := hd
    have hhd : data.cap.frames = [] := h (mid, data) (by simp)
    have hrl : (readLooped data.cap).1 = none := by
      simp [readLooped, capRead, capSeekStart, hhd]
    simp only [drawSources, hrl]
    exact ih surf (some data.fps) (fun p hp => h p (List.mem_cons_of_mem _ hp))

lemma shape_allEmpty {l l' : List (String × CapData)}
    (h : l.map capShape = l'.map capShape)
    (ha : ∀ p ∈ l', p.2.cap.frames = ([] : List Frame)) :
    ∀ p ∈ l, p.2.cap.frames = ([] : List Frame) := by
  intro p hp
  have hmem : capShape p ∈ l'.map capShape := by
    rw [← h]
    exact List.mem_map_of_mem capShape hp
  rcases List.mem_map.mp hmem with ⟨q, hq, he⟩
  have hfr : q.2.cap.frames = p.2.cap.frames := congrArg CapShape.frames he
  rw [← hfr]
  exact ha q hq

lemma shape_ne_nil {l l' : List (String × CapData)}
    (h : l.map capShape = l'.map capShape) (hne : l' ≠ []) : l ≠ [] := by
  intro he
  apply hne
  have := congrArg List.length h
  simp [he] at this
  exact List.length_eq_zero.mp this.symm

lemma runLoop_allEmpty (mx my tw th : Int) :
    ∀ (fuel : Nat) (caps : List (String × CapData)) (surf : Surface),
      caps ≠ [] → (∀ p ∈ caps, p.2.cap.frames = ([] : List Frame)) →
      1 ≤ fuel →
      (runLoop mx my tw th true fuel caps surf).presentAttempts = fuel ∧
      (runLoop mx my tw th true fuel caps surf).ticks = fuel ∧
      ∃ s, (runLoop mx my tw th true fuel caps surf).lastPresented = some s ∧
        ∀ px py : Int, 0 ≤ px → px < tw → 0 ≤ py → py < th →
          s px py = rgbBlack := by
  intro fuel
  induction fuel with
  | zero => intro caps surf _ _ hf; omega
  | succ n ih =>
    intro caps surf hne hall _
    have hsurfeq := drawSources_surf_allEmpty mx my caps
      (fillSolidRect surf 0 0 tw th rgbBlack) none hall
    have hshape := drawSources_shape mx my caps
      (fillSolidRect surf 0 0 tw th rgbBlack) none
    by_cases hn : n = 0
    · subst hn
      simp only [runLoop, if_neg hne]
      refine ⟨trivial, trivial,
        ⟨(drawSources mx my caps (fillSolidRect surf 0 0 tw th rgbBlack)
            none).2.1, ?_, ?_⟩⟩
      · simp [runLoop, Option.orElse]
      · intro px py h1 h2 h3 h4
        rw [hsurfeq]
        simp [fillSolidRect, h1, h2, h3, h4]
    · have hne' := shape_ne_nil hshape hne
      have hall' := shape_allEmpty hshape hall
      obtain ⟨ia, it, s, hs, hblack⟩ := ih
        ((drawSources mx my caps (fillSolidRect surf 0 0 tw th rgbBlack)
          none).1)
        ((drawSources mx my caps (fillSolidRect surf 0 0 tw th rgbBlack)
          none).2.1)
        hne' hall' (by omega)
      simp only [runLoop, if_neg hne]
      refine ⟨by simp [ia], by simp [it], ⟨s, ?_, hblack⟩⟩
      simp [hs, Option.orElse]

/-- Claim C10: in the Running state, every tick clears the full composition
surface to black and then presents it: in a session whose every open
source has no decodable frame (every read and its seek-to-0 retry fail),
every tick still performs a present, and the last presented composite is
entirely black inside the composition-surface bounds — the present is not
skipped and no stale content survives the clear. -/
theorem all_fail_tick_presents_black (mx my tw th : Int) (fuel : Nat)
    (caps : List (String × CapData)) (surf : Surface)
    (hne : caps ≠ [])
    (hall : ∀ p ∈ caps, p.2.cap.frames = ([] : List Frame))
    (hfuel : 1 ≤ fuel) :
    (runLoop mx my tw th true fuel caps surf).presentAttempts = fuel ∧
    (runLoop mx my tw th true fuel caps surf).ticks = fuel ∧
    ∃ s, (runLoop mx my tw th true fuel caps surf).lastPresented = some s ∧
      ∀ px py : Int, 0 ≤ px → px < tw → 0 ≤ py → py < th →
        s px py = rgbBlack :=
  runLoop_allEmpty mx my tw th fuel caps surf hne hall hfuel

/-! ### Characterisation of the source-opening pass (app.py lines 112-125) -/

lemma openSources_errors (capFor : String → Cap) :
    ∀ cfgs : List (String × AssignConfig),
      (openSources capFor cfgs).2.1
        = (cfgs.filter (fun p =>
            !(p.2.video_path == "") && !(capFor p.2.video_path).opened)).map
            (fun p => "Could not open video: " ++ p.2.video_path) := by
  intro cfgs
  induction cfgs with
  | nil => rfl
  | cons hd tl ih =>
    obtain ⟨mid, cfg⟩ := hd
    by_cases hp : cfg.video_path = ""
    · simp [openSources, hp, List.filter_cons, ih]
    · by_cases ho : (capFor cfg.video_path).opened
      · simp [openSources, hp, ho, List.filter_cons, ih]
      · simp [openSources, hp, ho, List.filter_cons, ih]

lemma openSources_caps_keys (capFor : String → Cap) :
    ∀ cfgs : List (String × AssignConfig),
      ((openSources capFor cfgs).1).map Prod.fst
        = (cfgs.filter (fun p =>
            !(p.2.video_path == "") && (capFor p.2.video_path).opened)).map
            Prod.fst := by
  intro cfgs
  induction cfgs with
  | nil => rfl
  | cons hd tl ih =>
    obtain ⟨mid, cfg⟩ := hd
    by_cases hp : cfg.video_path = ""
    · simp [openSources, hp, List.filter_cons, ih]
    · by_cases ho : (capFor cfg.video_path).opened
      · simp [openSources, hp, ho, List.filter_cons, ih]
      · simp [openSources, hp, ho, List.filter_cons, ih]

lemma openSources_constructed (capFor : String → Cap) :
    ∀ cfgs : List (String × AssignConfig),
      (openSources capFor cfgs).2.2.2
        = (cfgs.filter (fun p => !(p.2.video_path == ""))).map
            (fun p => (p.1, p.2.video_path)) := by
  intro cfgs
  induction cfgs with
  | nil => rfl
  | cons hd tl ih =>
    obtain ⟨mid, cfg⟩ := hd
    by_cases hp : cfg.video_path = ""
    · simp [openSources, hp, List.filter_cons, ih]
    · by_cases ho : (capFor cfg.video_path).opened
      · simp [openSources, hp, ho, List.filter_cons, ih]
      · simp [openSources, hp, ho, List.filter_cons, ih]

/-! ### The thread body on its control-flow branches -/

lemma runThread_ok (env : Env) (w : Nat) (m : Monitor) (ms : List Monitor)
    (hw : env.workerw = some w) (hdc : env.dcOk = true)
    (hm : env.monitors = m :: ms) (hb : env.bmpOk = true) :
    runThread env =
      { errors := (openSources env.capFor env.monitor_config).2.1,
        fpsSignals := (openSources env.capFor env.monitor_config).2.2.1,
        ticks := (sessionLoop env m ms).ticks,
        sleeps := (sessionLoop env m ms).sleeps,
        presentAttempts := (sessionLoop env m ms).presentAttempts,
        lastPresented := (sessionLoop env m ms).lastPresented,
        hwndDCAcquired := true, hwndDCReleased := true,
        mfcDCAcquired := true, mfcDCReleased := true,
        saveDCAcquired := true, saveDCReleased := true,
        bmpAcquired := true, bmpReleased := true,
        capsConstructed := (openSources env.capFor env.monitor_config).2.2.2,
        capsStored :=
          ((openSources env.capFor env.monitor_config).1).map Prod.fst,
        capsReleased := ((sessionLoop env m ms).caps).map Prod.fst } := by
  simp only [runThread, hw, hdc, hm, hb, computeBBox_cons, sessionLoop,
    if_true]

lemma runThread_flags (env : Env) :
    (runThread env).hwndDCAcquired = (runThread env).hwndDCReleased ∧
    (runThread env).mfcDCAcquired = (runThread env).mfcDCReleased ∧
    (runThread env).saveDCAcquired = (runThread env).saveDCReleased ∧
    (runThread env).bmpAcquired = (runThread env).bmpReleased := by
  cases hwv : env.workerw with
  | none => simp [runThread, hwv, abortResult]
  | some w =>
    by_cases hdc : env.dcOk
    · cases hbb : computeBBox env.monitors with
      | error msg => simp [runThread, hwv, hdc, hbb, abortResult]
      | ok t =>
        obtain ⟨a, b, c, dd⟩ := t
        by_cases hbmp : env.bmpOk
        · simp [runThread, hwv, hdc, hbb, hbmp]
        · simp [runThread, hwv, hdc, hbb, hbmp, abortResult]
    · simp [runThread, hwv, hdc, abortResult]

lemma runThread_released_eq_stored (e : Env) :
    (runThread e).capsReleased = (runThread e).capsStored := by
  cases hwv : e.workerw with
  | none => simp [runThread, hwv, abortResult]
  | some w =>
    by_cases hdc : e.dcOk
    · cases hbb : computeBBox e.monitors with
      | error msg => simp [runThread, hwv, hdc, hbb, abortResult]
      | ok t =>
        obtain ⟨a, b, c, dd⟩ := t
        by_cases hbmp : e.bmpOk
        · simp only [runThread, hwv, hdc, hbb, hbmp, if_true]
          exact shape_map_fst
            (runLoop_caps_shape a b c dd e.presentOk e.tickBudget
              (openSources e.capFor e.monitor_config).1 (fun _ _ => rgbBlack))
        · simp [runThread, hwv, hdc, hbb, hbmp, abortResult]
    · simp [runThread, hwv, hdc, abortResult]

/-! ### Claims about the whole thread body -/

/-- Claim C8: if the Desktop Surface Locator does not find the WorkerW
window, the session aborts before any rendering: the error is reported to
the caller, no drawing resource is acquired, no decoder is constructed, no
tick runs, and the thread body ends (the session stays Stopped). -/
theorem workerw_not_found_aborts (env : Env) (hw : env.workerw = none) :
    (runThread env).errors = ["Could not find WorkerW window"] ∧
    (runThread env).ticks = 0 ∧
    (runThread env).presentAttempts = 0 ∧
    (runThread env).sleeps = [] ∧
    (runThread env).hwndDCAcquired = false ∧
    (runThread env).mfcDCAcquired = false ∧
    (runThread env).saveDCAcquired = false ∧
    (runThread env).bmpAcquired = false ∧
    (runThread env).capsConstructed = [] ∧
    (runThread env).capsStored = [] := by
  simp [runThread, hw, abortResult]

/-- Witness for C8 at a concrete environment. -/
theorem workerw_not_found_aborts_witness :
    envNoWorker.workerw = none ∧
    ((runThread envNoWorker).errors = ["Could not find WorkerW window"] ∧
     (runThread envNoWorker).ticks = 0 ∧
     (runThread envNoWorker).presentAttempts = 0 ∧
     (runThread envNoWorker).sleeps = [] ∧
     (runThread envNoWorker).hwndDCAcquired = false ∧
     (runThread envNoWorker).mfcDCAcquired = false ∧
     (runThread envNoWorker).saveDCAcquired = false ∧
     (runThread envNoWorker).bmpAcquired = false ∧
     (runThread envNoWorker).capsConstructed = [] ∧
     (runThread envNoWorker).capsStored = []) :=
  ⟨rfl, workerw_not_found_aborts envNoWorker rfl⟩

/-- Claim C2: for every session run — error-return and exception paths
included — each acquired drawing resource (window device context,
compatible/memory context, bitmap) is released at session end, and across
any sequence of start/stop cycles the total acquire count equals the total
release count: no drawing handle leaks. -/
theorem drawing_resources_balanced (env : Env) :
    ((runThread env).hwndDCAcquired = (runThread env).hwndDCReleased ∧
     (runThread env).mfcDCAcquired = (runThread env).mfcDCReleased ∧
     (runThread env).saveDCAcquired = (runThread env).saveDCReleased ∧
     (runThread env).bmpAcquired = (runThread env).bmpReleased) ∧
    ∀ envs : List Env,
      (envs.map (fun e => acquiredCount (runThread e))).sum
        = (envs.map (fun e => releasedCount (runThread e))).sum := by
  refine ⟨runThread_flags env, ?_⟩
  intro envs
  induction envs with
  | nil => rfl
  | cons e es ih =>
    simp only [List.map_cons, List.sum_cons, ih]
    obtain ⟨h1, h2, h3, h4⟩ := runThread_flags e
    simp [acquiredCount, releasedCount, h1, h2, h3, h4]

/-- Counterexample to claim C1 as stated: a start with zero assignments
runs no tick but reports no error at all — the error-report channel stays
empty, so the "an error is reported" part of the claim fails. -/
theorem zero_assignments_silent_cex :
    envEmptyCfg.monitor_config = [] ∧
    (runThread envEmptyCfg).capsStored = [] ∧
    (runThread envEmptyCfg).ticks = 0 ∧
    (runThread envEmptyCfg).errors = [] :=
  ⟨rfl, rfl, rfl, rfl⟩

/-- Claim C1 (amended): when zero sources open successfully, no tick ever
runs and the thread body terminates (the session ends Stopped); the errors
reported are exactly one message per assignment whose non-empty path
failed to open — in particular, a start with no non-empty-path assignment
at all reports nothing. -/
theorem zero_valid_assignments_no_tick (env : Env) (w : Nat) (m : Monitor)
    (ms : List Monitor) (hw : env.workerw = some w) (hdc : env.dcOk = true)
    (hm : env.monitors = m :: ms) (hb : env.bmpOk = true)
    (hcaps : (openSources env.capFor env.monitor_config).1 = []) :
    (runThread env).ticks = 0 ∧
    (runThread env).presentAttempts = 0 ∧
    (runThread env).sleeps = [] ∧
    (runThread env).errors
      = (env.monitor_config.filter (fun p =>
          !(p.2.video_path == "")
            && !(env.capFor p.2.video_path).opened)).map
          (fun p => "Could not open video: " ++ p.2.video_path) := by
  rw [runThread_ok env w m ms hw hdc hm hb]
  simp only [sessionLoop, hcaps, runLoop_nil]
  exact ⟨trivial, trivial, trivial,
    openSources_errors env.capFor env.monitor_config⟩

/-- Witness for C1 (amended) at a concrete environment whose single
assignment fails to open. -/
theorem zero_valid_assignments_no_tick_witness :
    envFailOpen.workerw = some 1 ∧ envFailOpen.dcOk = true ∧
    envFailOpen.monitors = [mon1] ∧ envFailOpen.bmpOk = true ∧
    (openSources envFailOpen.capFor envFailOpen.monitor_config).1 = [] ∧
    ((runThread envFailOpen).ticks = 0 ∧
     (runThread envFailOpen).presentAttempts = 0 ∧
     (runThread envFailOpen).sleeps = [] ∧
     (runThread envFailOpen).errors
       = (envFailOpen.monitor_config.filter (fun p =>
           !(p.2.video_path == "")
             && !(envFailOpen.capFor p.2.video_path).opened)).map
           (fun p => "Could not open video: " ++ p.2.video_path)) :=
  ⟨rfl, rfl, rfl, rfl, rfl,
   zero_valid_assignments_no_tick envFailOpen 1 mon1 [] rfl rfl rfl rfl rfl⟩

/-- Counterexample to claim C3 as stated: a source whose open fails has a
decoder constructed for it, but the finally block only releases the stored
caps — the failed decoder's release is called zero times, not once. -/
theorem failed_open_never_released_cex :
    (runThread envFailOpen).capsConstructed = [("monitor_1", "bad.mp4")] ∧
    (runThread envFailOpen).capsReleased = [] ∧
    (runThread envFailOpen).errors = ["Could not open video: bad.mp4"] :=
  ⟨rfl, rfl, rfl⟩

/-- Claim C3 (amended): every run releases exactly the stored (successfully
opened) sources — one release per stored source, on every exit path — and
a source that fails to open is excluded from the session (its key is not
stored), but no explicit release is ever issued for it even though its
decoder was constructed. -/
theorem opened_sources_released_once (env : Env) (w : Nat) (m : Monitor)
    (ms : List Monitor) (hw : env.workerw = some w) (hdc : env.dcOk = true)
    (hm : env.monitors = m :: ms) (hb : env.bmpOk = true) :
    (∀ e : Env, (runThread e).capsReleased = (runThread e).capsStored) ∧
    (runThread env).capsStored
      = (env.monitor_config.filter (fun p =>
          !(p.2.video_path == "")
            && (env.capFor p.2.video_path).opened)).map Prod.fst ∧
    (runThread env).capsConstructed
      = (env.monitor_config.filter (fun p => !(p.2.video_path == ""))).map
          (fun p => (p.1, p.2.video_path)) := by
  refine ⟨runThread_released_eq_stored, ?_, ?_⟩
  · rw [runThread_ok env w m ms hw hdc hm hb]
    exact openSources_caps_keys env.capFor env.monitor_config
  · rw [runThread_ok env w m ms hw hdc hm hb]
    exact openSources_constructed env.capFor env.monitor_config

/-- Witness for C3 (amended) at a concrete environment. -/
theorem opened_sources_released_once_witness :
    envFailOpen.workerw = some 1 ∧ envFailOpen.dcOk = true ∧
    envFailOpen.monitors = [mon1] ∧ envFailOpen.bmpOk = true ∧
    ((∀ e : Env, (runThread e).capsReleased = (runThread e).capsStored) ∧
     (runThread envFailOpen).capsStored
       = (envFailOpen.monitor_config.filter (fun p =>
           !(p.2.video_path == "")
             && (envFailOpen.capFor p.2.video_path).opened)).map Prod.fst ∧
     (runThread envFailOpen).capsConstructed
       = (envFailOpen.monitor_config.filter
           (fun p => !(p.2.video_path == ""))).map
           (fun p => (p.1, p.2.video_path))) :=
  ⟨rfl, rfl, rfl, rfl,
   opened_sources_released_once envFailOpen 1 mon1 [] rfl rfl rfl rfl⟩

/-- Counterexample to claim C5 as stated: with zero monitors the session
does not complete as a silent no-op over a degenerate bounding box — the
empty-sequence ValueError from the min builtin is reported through the
error channel. -/
theorem zero_monitors_not_noop_cex :
    envNoMonitors.monitors = [] ∧
    (runThread envNoMonitors).errors = ["min() arg is an empty sequence"] ∧
    (runThread envNoMonitors).errors ≠ [] :=
  ⟨rfl, rfl, by decide⟩

/-- Claim C5 (amended): with zero monitors, the bounding-box computation
raises (min of an empty sequence); the exception is caught by the thread's
catch-all handler and reported via the error channel, the contexts already
acquired are all released, no bitmap is created, no decoder is
constructed, no tick runs, and the thread exits — the host process does
not crash, but the bounding box is never treated as degenerate. -/
theorem zero_monitors_raises (env : Env) (w : Nat)
    (hw : env.workerw = some w) (hdc : env.dcOk = true)
    (hm : env.monitors = []) :
    (runThread env).errors = ["min() arg is an empty sequence"] ∧
    (runThread env).ticks = 0 ∧
    (runThread env).presentAttempts = 0 ∧
    (runThread env).capsConstructed = [] ∧
    (runThread env).hwndDCAcquired = true ∧
    (runThread env).hwndDCReleased = true ∧
    (runThread env).mfcDCAcquired = true ∧
    (runThread env).mfcDCReleased = true ∧
    (runThread env).saveDCAcquired = true ∧
    (runThread env).saveDCReleased = true ∧
    (runThread env).bmpAcquired = false := by
  have hbb : computeBBox env.monitors
      = .error "min() arg is an empty sequence" := by rw [hm]; rfl
  simp [runThread, hw, hdc, hbb, abortResult]

/-- Witness for C5 (amended) at a concrete environment. -/
theorem zero_monitors_raises_witness :
    envNoMonitors.workerw = some 1 ∧ envNoMonitors.dcOk = true ∧
    envNoMonitors.monitors = [] ∧
    ((runThread envNoMonitors).errors = ["min() arg is an empty sequence"] ∧
     (runThread envNoMonitors).ticks = 0 ∧
     (runThread envNoMonitors).presentAttempts = 0 ∧
     (runThread envNoMonitors).capsConstructed = [] ∧
     (runThread envNoMonitors).hwndDCAcquired = true ∧
     (runThread envNoMonitors).hwndDCReleased = true ∧
     (runThread envNoMonitors).mfcDCAcquired = true ∧
     (runThread envNoMonitors).mfcDCReleased = true ∧
     (runThread envNoMonitors).saveDCAcquired = true ∧
     (runThread envNoMonitors).saveDCReleased = true ∧
     (runThread envNoMonitors).bmpAcquired = false) :=
  ⟨rfl, rfl, rfl, zero_monitors_raises envNoMonitors 1 rfl rfl rfl⟩

/-- Witness for C6 at concrete decoders: one at end of stream with two
frames, one with no decodable frame. -/
theorem eos_loop_restart_witness :
    2 ≤ capTwo.frames.length ∧ capTwo.frames.length ≤ capTwo.pos ∧
    cdEmpty.cap.frames = [] ∧
    (readLooped capTwo
        = (some (capTwo.frames.headD ⟨[]⟩), { capTwo with pos := 1 }) ∧
     drawSources 0 0 [("m", cdEmpty)] (fun _ _ => rgbBlack) none
        = ([("m", { cdEmpty with cap := { cdEmpty.cap with pos := 0 } })],
           (fun _ _ => rgbBlack), some cdEmpty.fps) ∧
     ((drawSources 0 0 [("k", cdOne)]
         (fun _ _ => rgbBlack) none).1).map capShape
        = ([("k", cdOne)]).map capShape) :=
  ⟨by decide, by decide, rfl,
   eos_loop_restart capTwo (by decide) (by decide) 0 0 "m" cdEmpty rfl
     (fun _ _ => rgbBlack) none [("k", cdOne)]⟩

/-- Witness for C7 at a concrete one-source session run for two ticks. -/
theorem tick_pacing_witness :
    (([("m", cdOne)]).map capShape).getLast? = some (capShape ("m", cdOne)) ∧
    ((runLoop 0 0 4 4 true 2 [("m", cdOne)] (fun _ _ => rgbBlack)).sleeps
        = List.replicate 2 (1000 / (capShape ("m", cdOne)).fps) ∧
     (runLoop 0 0 4 4 true 2 [("m", cdOne)] (fun _ _ => rgbBlack)).ticks
        = 2) :=
  ⟨rfl, tick_pacing_uses_last_rate 0 0 4 4 true 2 [("m", cdOne)]
    (fun _ _ => rgbBlack) (capShape ("m", cdOne)) rfl⟩

/-- Witness for C9 at a concrete source and concrete pixels. -/
theorem blit_into_monitor_rect_witness :
    cdOne.cap.pos < cdOne.cap.frames.length ∧
    ¬ ((0 : Int) ≤ 100 ∧ (100 : Int) < 0 + 2 ∧
       (0 : Int) ≤ 100 ∧ (100 : Int) < 0 + 2) ∧
    (stretchDIBits (fun _ _ => rgbBlack) 0 0 2 2 1 1
        (cvtColorBGR2BGRA frameA) 100 100
      = (fun _ _ => rgbBlack : Surface) 100 100 ∧
     ((cdOne.info.x - 0 ≤ 1 ∧ (1 : Int) < cdOne.info.x - 0 + cdOne.info.width ∧
       cdOne.info.y - 0 ≤ 1 ∧
       (1 : Int) < cdOne.info.y - 0 + cdOne.info.height) →
       (drawSources 0 0 [("m", cdOne)]
           (fillSolidRect (fun _ _ => rgbBlack) 0 0 4 4 rgbBlack)
           none).2.1 1 1
         = samplePix
             (cvtColorBGR2BGRA
               (cdOne.cap.frames.get ⟨cdOne.cap.pos, by decide⟩))
             ((1 - (cdOne.info.x - 0)) * (cdOne.cap.frameWidth : Int)
               / cdOne.info.width).toNat
             ((1 - (cdOne.info.y - 0)) * (cdOne.cap.frameHeight : Int)
               / cdOne.info.height).toNat) ∧
     (¬ (cdOne.info.x - 0 ≤ 1 ∧
         (1 : Int) < cdOne.info.x - 0 + cdOne.info.width ∧
         cdOne.info.y - 0 ≤ 1 ∧
         (1 : Int) < cdOne.info.y - 0 + cdOne.info.height) →
       ((0 : Int) ≤ 1 ∧ (1 : Int) < 4 ∧ (0 : Int) ≤ 1 ∧ (1 : Int) < 4) →
       (drawSources 0 0 [("m", cdOne)]
           (fillSolidRect (fun _ _ => rgbBlack) 0 0 4 4 rgbBlack)
           none).2.1 1 1 = rgbBlack)) :=
  ⟨by decide, by decide,
   blit_into_monitor_rect 0 0 4 4 "m" cdOne (fun _ _ => rgbBlack)
     (by decide) 1 1 (fun _ _ => rgbBlack) 0 0 2 2 1 1
     (cvtColorBGR2BGRA frameA) 100 100 (by decide)⟩

/-- Witness for C10 at a concrete one-source session whose only source has
no decodable frame. -/
theorem all_fail_tick_witness :
    ([("m", cdEmpty)] : List (String × CapData)) ≠ [] ∧
    (∀ p ∈ ([("m", cdEmpty)] : List (String × CapData)),
      p.2.cap.frames = ([] : List Frame)) ∧
    1 ≤ 1 ∧
    ((runLoop 0 0 4 4 true 1 [("m", cdEmpty)]
        (fun _ _ => rgbBlack)).presentAttempts = 1 ∧
     (runLoop 0 0 4 4 true 1 [("m", cdEmpty)]
        (fun _ _ => rgbBlack)).ticks = 1 ∧
     ∃ s, (runLoop 0 0 4 4 true 1 [("m", cdEmpty)]
        (fun _ _ => rgbBlack)).lastPresented = some s ∧
       ∀ px py : Int, 0 ≤ px → px < 4 → 0 ≤ py → py < 4 →
         s px py = rgbBlack) :=
  ⟨by decide, by decide, le_refl 1,
   all_fail_tick_presents_black 0 0 4 4 1 [("m", cdEmpty)]
     (fun _ _ => rgbBlack) (by decide) (by decide) (le_refl 1)⟩
